import Mathlib

/-!
A verification development for the Mihomo config-file persistence module of
this repository: the `readMihomoConfigFile` / `writeMihomoConfigFile` pair
with its `mapNodeError` classifier, the HTTP PUT boundary that delegates to
the writer, and the bounded remote-fetch handler.

The filesystem is modelled as a partial map from paths to files.  Each
asynchronous Node.js primitive used by the module (`writeFile`, `rename`,
`stat`, `unlink`, `readFile`) either succeeds, with the effect it has on the
map, or fails with an injected low-level error signal; a run of an operation
is the nested sequence of these primitives exactly as the source sequences
them, together with the trace of primitives attempted.
-/

namespace MihomoConfig

/-- `MIHOMO_CONFIG_FILE_PATH` from the source module. -/
def MIHOMO_CONFIG_FILE_PATH : String := "/opt/mihomo/config.yaml"

/-- `MAX_MIHOMO_CONFIG_SIZE_BYTES = 2 * 1024 * 1024` from the source module. -/
def MAX_MIHOMO_CONFIG_SIZE_BYTES : Nat := 2 * 1024 * 1024

/-- The closed error taxonomy `MihomoConfigErrorCode` from the source. -/
inductive MihomoConfigErrorCode
  | NOT_FOUND
  | PERMISSION_DENIED
  | INVALID_CONTENT
  | CONTENT_TOO_LARGE
  | IO_ERROR
deriving DecidableEq

/-- The `MihomoConfigError` class: a code, an HTTP status code, a message. -/
structure MihomoConfigError where
  code : MihomoConfigErrorCode
  statusCode : Nat
  message : String
deriving DecidableEq

/-- A low-level Node.js failure signal as `mapNodeError` sees it: the
optional-chained `err?.code` property.  `none` models an error value with no
string `code` property. -/
structure NodeError where
  code : Option String
deriving DecidableEq

/-- The `action` parameter of `mapNodeError`. -/
inductive FsAction
  | read
  | write
deriving DecidableEq

/-- The wording of the action inside error messages. -/
def FsAction.str : FsAction → String
  | .read => "read"
  | .write => "write"

def enoent : String := "ENOENT"

def eacces : String := "EACCES"

def eperm : String := "EPERM"

def notFoundMessage : String := "Mihomo config file not found"

def permissionDeniedMessage (action : FsAction) : String :=
  "Permission denied while trying to " ++ action.str ++ " Mihomo config file"

def ioErrorMessage (action : FsAction) : String :=
  "Failed to " ++ action.str ++ " Mihomo config file"

/-- `mapNodeError` from the source: ENOENT maps to NOT_FOUND 404, EACCES or
EPERM maps to PERMISSION_DENIED 403, anything else to IO_ERROR 500; the
action only enters the message text. -/
def mapNodeError (err : NodeError) (action : FsAction) : MihomoConfigError :=
  if err.code = some enoent then
    ⟨.NOT_FOUND, 404, notFoundMessage⟩
  else if err.code = some eacces ∨ err.code = some eperm then
    ⟨.PERMISSION_DENIED, 403, permissionDeniedMessage action⟩
  else
    ⟨.IO_ERROR, 500, ioErrorMessage action⟩

/-- A file on disk: its full text content and its modification time in
milliseconds. -/
structure File where
  content : String
  mtimeMs : Nat
deriving DecidableEq

/-- The filesystem: a partial map from paths to files. -/
abbrev FS := String → Option File

/-- Update a single path of the filesystem. -/
def fsSet (fs : FS) (p : String) (v : Option File) : FS :=
  fun q => if q = p then v else fs q

/-- The record returned by a successful read. -/
structure ReadResult where
  content : String
  mtimeMs : Nat
deriving DecidableEq

/-- Injected failures for the two primitives of `readMihomoConfigFile`.  A
fault stands for a low-level failure on an existing file (access denied,
device error, ...); a missing file produces its ENOENT without injection. -/
structure ReadFaults where
  readFileErr : Option NodeError
  statErr : Option NodeError
deriving DecidableEq

/-- `readMihomoConfigFile` from the source: `readFile` and `stat` run as one
logical step; any rejection is pushed through `mapNodeError` with action
`read`.  The filesystem is returned unchanged: reading mutates nothing. -/
def readMihomoConfigFile (filePath : String) (rf : ReadFaults) (fs : FS) :
    Except MihomoConfigError ReadResult × FS :=
  match fs filePath with
  | none => (Except.error (mapNodeError ⟨some enoent⟩ .read), fs)
  | some file =>
    match rf.readFileErr with
    | some e => (Except.error (mapNodeError e .read), fs)
    | none =>
      match rf.statErr with
      | some e => (Except.error (mapNodeError e .read), fs)
      | none => (Except.ok ⟨file.content, file.mtimeMs⟩, fs)

/-- The record returned by a successful write. -/
structure WriteResult where
  mtimeMs : Nat
deriving DecidableEq

/-- Injected failures for the four primitives of `writeMihomoConfigFile`,
in the order the source invokes them. -/
structure WriteFaults where
  writeFileErr : Option NodeError
  renameErr : Option NodeError
  statErr : Option NodeError
  unlinkErr : Option NodeError
deriving DecidableEq

/-- The fault configuration in which every primitive succeeds. -/
def noFaults : WriteFaults := ⟨none, none, none, none⟩

/-- A storage primitive attempted during a run, for the operation trace. -/
inductive FsOp
  | writeFileOp (path : String) (content : String)
  | renameOp (src : String) (dst : String)
  | statOp (path : String)
  | unlinkOp (path : String)
deriving DecidableEq

/-- The temporary sibling path: filePath, a dot, the process id, a dot, the
current timestamp, and the suffix tmp. -/
def tempPathOf (filePath : String) (pid tsNow : Nat) : String :=
  filePath ++ "." ++ toString pid ++ "." ++ toString tsNow ++ ".tmp"

/-- The finally-block cleanup: `unlink(tempPath)` with any rejection caught
and discarded.  An injected fault leaves the temp entry in place; otherwise
the entry is removed (removing an absent entry is the swallowed ENOENT of
the success path). -/
def runUnlink (tempPath : String) (unlinkErr : Option NodeError) (fs : FS) : FS :=
  match unlinkErr with
  | some _ => fs
  | none => fsSet fs tempPath none

def invalidContentMessage : String := "`content` must be a string"

def contentTooLargeMessage : String :=
  "Config content exceeds " ++ toString MAX_MIHOMO_CONFIG_SIZE_BYTES ++ " bytes"

/-- The try/finally storage phase of `writeMihomoConfigFile`: write the whole
content to the temp path, rename it onto the target, stat the target; on any
rejection stop with that error; in every case finish with the cleanup unlink.
The clock value is the mtime the filesystem stamps on the temp file.  Returns
the primary outcome, the final filesystem, and the trace of attempted
primitives. -/
def writeStorage (content tempPath filePath : String) (clock : Nat)
    (wf : WriteFaults) (fs : FS) : Except NodeError Nat × FS × List FsOp :=
  match wf.writeFileErr with
  | some e =>
    (Except.error e, runUnlink tempPath wf.unlinkErr fs,
      [FsOp.writeFileOp tempPath content, FsOp.unlinkOp tempPath])
  | none =>
    let fs1 := fsSet fs tempPath (some ⟨content, clock⟩)
    match wf.renameErr with
    | some e =>
      (Except.error e, runUnlink tempPath wf.unlinkErr fs1,
        [FsOp.writeFileOp tempPath content, FsOp.renameOp tempPath filePath,
          FsOp.unlinkOp tempPath])
    | none =>
      let fs2 := fsSet (fsSet fs1 filePath (fs1 tempPath)) tempPath none
      match wf.statErr with
      | some e =>
        (Except.error e, runUnlink tempPath wf.unlinkErr fs2,
          [FsOp.writeFileOp tempPath content, FsOp.renameOp tempPath filePath,
            FsOp.statOp filePath, FsOp.unlinkOp tempPath])
      | none =>
        match fs2 filePath with
        | some file =>
          (Except.ok file.mtimeMs, runUnlink tempPath wf.unlinkErr fs2,
            [FsOp.writeFileOp tempPath content, FsOp.renameOp tempPath filePath,
              FsOp.statOp filePath, FsOp.unlinkOp tempPath])
        | none =>
          (Except.error ⟨some enoent⟩, runUnlink tempPath wf.unlinkErr fs2,
            [FsOp.writeFileOp tempPath content, FsOp.renameOp tempPath filePath,
              FsOp.statOp filePath, FsOp.unlinkOp tempPath])

/-- `writeMihomoConfigFile` from the source, for a content value that passed
the typeof guard: the UTF-8 byte-length ceiling is checked first and rejects
with CONTENT_TOO_LARGE 413 before any storage primitive runs; otherwise the
storage phase runs and a storage rejection is classified by `mapNodeError`
with action `write`. -/
def writeMihomoConfigFile (content filePath : String) (pid tsNow clock : Nat)
    (wf : WriteFaults) (fs : FS) :
    Except MihomoConfigError WriteResult × FS × List FsOp :=
  if MAX_MIHOMO_CONFIG_SIZE_BYTES < content.utf8ByteSize then
    (Except.error ⟨.CONTENT_TOO_LARGE, 413, contentTooLargeMessage⟩, fs, [])
  else
    match writeStorage content (tempPathOf filePath pid tsNow) filePath clock wf fs with
    | (Except.ok mt, fsOut, ops) => (Except.ok ⟨mt⟩, fsOut, ops)
    | (Except.error e, fsOut, ops) =>
      (Except.error (mapNodeError e .write), fsOut, ops)

/-- A JavaScript runtime value, as far as the guard
`typeof content === string` can distinguish it. -/
inductive JSValue
  | str (s : String)
  | num (n : Int)
  | boolean (b : Bool)
  | null
  | undefined
  | object
  | array
deriving DecidableEq

/-- Whether `typeof v` is the string type. -/
def JSValue.isString : JSValue → Bool
  | .str _ => true
  | _ => false

/-- `writeMihomoConfigFile` including its leading typeof guard, which rejects
any non-string content with INVALID_CONTENT 400 before anything else. -/
def writeMihomoConfigFileJS (content : JSValue) (filePath : String)
    (pid tsNow clock : Nat) (wf : WriteFaults) (fs : FS) :
    Except MihomoConfigError WriteResult × FS × List FsOp :=
  match content with
  | .str s => writeMihomoConfigFile s filePath pid tsNow clock wf fs
  | _ => (Except.error ⟨.INVALID_CONTENT, 400, invalidContentMessage⟩, fs, [])

/-- The transport-level error a handler raises via `createError`: status
code, status message, and the optional machine-readable code payload. -/
structure HttpError where
  statusCode : Nat
  statusMessage : String
  dataCode : Option MihomoConfigErrorCode
deriving DecidableEq

/-- The parsed PUT request body: its `content` property (a missing property
reads as the undefined value). -/
structure PutBody where
  content : JSValue
deriving DecidableEq

/-- The success payload of the PUT handler. -/
structure PutResponse where
  ok : Bool
  mtimeMs : Nat
deriving DecidableEq

/-- The HTTP PUT handler from `mihomo-config.put.ts`: a nullish body or a
non-string `content` property is rejected with INVALID_CONTENT 400 before
delegating; otherwise the writer runs and any `MihomoConfigError` is mapped
to `createError` with its statusCode, message, and code payload. -/
def mihomoConfigPut (body : Option PutBody) (filePath : String)
    (pid tsNow clock : Nat) (wf : WriteFaults) (fs : FS) :
    Except HttpError PutResponse × FS × List FsOp :=
  let toHttp : MihomoConfigError → HttpError :=
    fun e => ⟨e.statusCode, e.message, some e.code⟩
  match body with
  | none =>
    (Except.error (toHttp ⟨.INVALID_CONTENT, 400, invalidContentMessage⟩), fs, [])
  | some b =>
    match b.content with
    | .str s =>
      match writeMihomoConfigFile s filePath pid tsNow clock wf fs with
      | (Except.ok r, fsOut, ops) => (Except.ok ⟨true, r.mtimeMs⟩, fsOut, ops)
      | (Except.error e, fsOut, ops) => (Except.error (toHttp e), fsOut, ops)
    | _ =>
      (Except.error (toHttp ⟨.INVALID_CONTENT, 400, invalidContentMessage⟩), fs, [])

/-- A completed HTTP response as the remote-fetch handler consumes it:
`ok`, `status`, the raw content-length header if any, and the decoded body
text. -/
structure FetchResponse where
  ok : Bool
  status : Nat
  contentLength : Option String
  bodyText : String
deriving DecidableEq

/-- The success payload of the remote-fetch handler. -/
structure FetchResult where
  content : String
deriving DecidableEq

def missingUrlMessage : String := "Missing required query parameter: url"

def badSchemeMessage : String := "URL must start with http:// or https://"

def remoteTooLargeMessage : String :=
  "Remote file exceeds " ++ toString MAX_MIHOMO_CONFIG_SIZE_BYTES ++ " bytes limit"

def remoteStatusMessage (status : Nat) : String :=
  "Remote server responded with " ++ toString status

/-- The JavaScript truthiness of a string: only the empty string is falsy. -/
def jsTruthy (s : String) : Bool := s.data ≠ []

/-- Decimal value of a digit character list, most significant digit first. -/
def digitsToNat : List Char → Nat → Nat
  | [], acc => acc
  | c :: cs, acc => digitsToNat cs (acc * 10 + (c.toNat - 48))

/-- Models the JavaScript builtin `Number(s)` on the strings that occur as
content-length header values: a nonempty all-digit string yields its decimal
value, anything else is NaN, modelled as `none`.  (Exotic inputs `Number`
would also accept, such as padded or exponent forms, do not occur as
content-length values.) -/
def jsNumber (s : String) : Option Nat :=
  if s.data ≠ [] ∧ s.data.all Char.isDigit then some (digitsToNat s.data 0)
  else none

/-- The comparison `Number(s) > bound`: every comparison against NaN is
false. -/
def jsHeaderNumberGt (s : String) (bound : Nat) : Bool :=
  match jsNumber s with
  | some n => bound < n
  | none => false

/-- The guard around the content-length header: an absent header or a falsy
(empty) header string skips the check; otherwise the parsed value is
compared against the ceiling. -/
def contentLengthOversized (h : Option String) : Bool :=
  match h with
  | none => false
  | some s => jsTruthy s && jsHeaderNumberGt s MAX_MIHOMO_CONFIG_SIZE_BYTES

/-- Models the JS `startsWith` check on the url. -/
def strStartsWith (s pre : String) : Bool := pre.data.isPrefixOf s.data

/-- The remote-fetch GET handler from the source, modelled from the point
where `fetch` has produced `resp`: a missing or falsy url parameter and a
non-http scheme are rejected with 400; a non-ok response propagates its
status; an oversized declared content-length is rejected with 413; a decoded
body whose UTF-8 byte length exceeds the ceiling is rejected with 413;
otherwise the body text is returned. -/
def remoteFetchHandler (url : Option String) (resp : FetchResponse) :
    Except HttpError FetchResult :=
  match url with
  | none => Except.error ⟨400, missingUrlMessage, none⟩
  | some u =>
    if !jsTruthy u then Except.error ⟨400, missingUrlMessage, none⟩
    else if !(strStartsWith u ("http://") || strStartsWith u ("https://")) then
      Except.error ⟨400, badSchemeMessage, none⟩
    else if !resp.ok then
      Except.error ⟨resp.status, remoteStatusMessage resp.status, none⟩
    else if contentLengthOversized resp.contentLength then
      Except.error ⟨413, remoteTooLargeMessage, none⟩
    else if MAX_MIHOMO_CONFIG_SIZE_BYTES < resp.bodyText.utf8ByteSize then
      Except.error ⟨413, remoteTooLargeMessage, none⟩
    else
      Except.ok ⟨resp.bodyText⟩

/-! ### Concrete inputs used by witnesses and counterexamples -/

/-- A content string of exactly one byte more than the ceiling. -/
def oversizeContent : String :=
  String.mk (List.replicate (MAX_MIHOMO_CONFIG_SIZE_BYTES + 1) 'a')

/-- A content string of exactly the ceiling's byte length. -/
def exactMaxContent : String :=
  String.mk (List.replicate MAX_MIHOMO_CONFIG_SIZE_BYTES 'a')

/-- A small filesystem holding one config file with mtime 5. -/
def sampleFS : FS :=
  fun p => if p = MIHOMO_CONFIG_FILE_PATH then some ⟨"port: 7890\n", 5⟩ else none

/-- The replacement payload the witnesses write. -/
def samplePayload : String := "port: 7891\n"

/-- The filesystem with no files at all. -/
def emptyFS : FS := fun _ => none

def eio : String := "EIO"

/-- Faults in which only the final `stat` of the target fails. -/
def statFault : WriteFaults := ⟨none, none, some ⟨some eio⟩, none⟩

/-! ### Helper lemmas -/

/-- The UTF-8 byte length of a replicated character. -/
theorem utf8ByteSize_replicate (c : Char) (n : Nat) :
    (String.mk (List.replicate n c)).utf8ByteSize = n * c.utf8Size := by
  induction n with
  | zero => rw [Nat.zero_mul]; rfl
  | succ k ih =>
    simp only [List.replicate, String.utf8ByteSize_mk, String.utf8Len_cons] at ih ⊢
    rw [ih]
    ring

theorem utf8Size_a : Char.utf8Size 'a' = 1 := rfl

theorem oversizeContent_utf8 :
    oversizeContent.utf8ByteSize = MAX_MIHOMO_CONFIG_SIZE_BYTES + 1 := by
  rw [oversizeContent, utf8ByteSize_replicate, utf8Size_a, Nat.mul_one]

theorem exactMaxContent_utf8 :
    exactMaxContent.utf8ByteSize = MAX_MIHOMO_CONFIG_SIZE_BYTES := by
  rw [exactMaxContent, utf8ByteSize_replicate, utf8Size_a, Nat.mul_one]

/-- The temporary sibling path is strictly longer than the target path, so
the two are distinct. -/
theorem tempPathOf_ne (filePath : String) (pid tsNow : Nat) :
    tempPathOf filePath pid tsNow ≠ filePath := by
  intro h
  have hl := congrArg String.length h
  have h1 : (".").length = 1 := rfl
  have h4 : (".tmp").length = 4 := rfl
  simp only [tempPathOf, String.length_append, h1, h4] at hl
  omega

/-- A successful run of the writer forces all three primary primitives to
have succeeded and the returned mtime to be the write clock. -/
theorem write_ok_shape (content filePath : String) (pid tsNow clock : Nat)
    (wf : WriteFaults) (fs : FS) (r : WriteResult)
    (h : (writeMihomoConfigFile content filePath pid tsNow clock wf fs).1 =
      Except.ok r) :
    wf.writeFileErr = none ∧ wf.renameErr = none ∧ wf.statErr = none ∧
      r = ⟨clock⟩ := by
  have hne : filePath ≠ tempPathOf filePath pid tsNow :=
    (tempPathOf_ne filePath pid tsNow).symm
  by_cases hsz : MAX_MIHOMO_CONFIG_SIZE_BYTES < content.utf8ByteSize
  · simp [writeMihomoConfigFile, hsz] at h
  · obtain ⟨w, rn, st, ul⟩ := wf
    simp only [writeMihomoConfigFile, if_neg hsz] at h
    cases w <;> cases rn <;> cases st <;>
      simp_all [writeStorage, runUnlink, fsSet, hne]

/-- The full run of a write whose three primary primitives succeed. -/
theorem write_ok_run (content filePath : String) (pid tsNow clock : Nat)
    (ul : Option NodeError) (fs : FS)
    (hsz : ¬ MAX_MIHOMO_CONFIG_SIZE_BYTES < content.utf8ByteSize) :
    (writeMihomoConfigFile content filePath pid tsNow clock ⟨none, none, none, ul⟩
        fs).1 = Except.ok ⟨clock⟩ ∧
    (writeMihomoConfigFile content filePath pid tsNow clock ⟨none, none, none, ul⟩
        fs).2.1 filePath = some ⟨content, clock⟩ := by
  have hne : filePath ≠ tempPathOf filePath pid tsNow :=
    (tempPathOf_ne filePath pid tsNow).symm
  cases ul <;> simp [writeMihomoConfigFile, writeStorage, runUnlink, fsSet, hsz, hne]

/-- C1: for text content within the byte ceiling, a successful
`writeMihomoConfigFile` followed by a fault-free `readMihomoConfigFile` of
the same path returns a result whose content field is exactly the written
string. -/
theorem write_then_read_roundtrip (content filePath : String)
    (pid tsNow clock : Nat) (wf : WriteFaults) (fs : FS) (r : WriteResult)
    (hsz : content.utf8ByteSize ≤ MAX_MIHOMO_CONFIG_SIZE_BYTES)
    (hok : (writeMihomoConfigFile content filePath pid tsNow clock wf fs).1 =
      Except.ok r) :
    (readMihomoConfigFile filePath ⟨none, none⟩
        (writeMihomoConfigFile content filePath pid tsNow clock wf fs).2.1).1 =
      Except.ok ⟨content, clock⟩ := by
  obtain ⟨w, rn, st, ul⟩ := wf
  obtain ⟨hw, hrn, hst, hr⟩ := write_ok_shape _ _ _ _ _ _ _ _ hok
  subst hw
  subst hrn
  subst hst
  have hsz2 : ¬ MAX_MIHOMO_CONFIG_SIZE_BYTES < content.utf8ByteSize := by omega
  have h2 := (write_ok_run content filePath pid tsNow clock ul fs hsz2).2
  simp [readMihomoConfigFile, h2]

/-- Witness for C1 at the spec's concrete scenario. -/
theorem write_then_read_roundtrip_witness :
    samplePayload.utf8ByteSize ≤ MAX_MIHOMO_CONFIG_SIZE_BYTES ∧
    (readMihomoConfigFile MIHOMO_CONFIG_FILE_PATH ⟨none, none⟩
        (writeMihomoConfigFile samplePayload MIHOMO_CONFIG_FILE_PATH 11 22 33
            noFaults sampleFS).2.1).1 =
      Except.ok ⟨samplePayload, 33⟩ :=
  ⟨by decide,
    write_then_read_roundtrip samplePayload MIHOMO_CONFIG_FILE_PATH 11 22 33
      noFaults sampleFS ⟨33⟩ (by decide) rfl⟩

/-- C2 (amended): a successful write leaves the target holding exactly the
new content; every run leaves the target either in its prior state or
holding the full new content — never partial, truncated, or newly absent;
and any failing run whose final stat primitive was not the faulting step
leaves the target in its prior state. -/
theorem write_atomic (content filePath : String) (pid tsNow clock : Nat)
    (wf : WriteFaults) (fs : FS) :
    (∀ r : WriteResult,
      (writeMihomoConfigFile content filePath pid tsNow clock wf fs).1 =
          Except.ok r →
        (writeMihomoConfigFile content filePath pid tsNow clock wf fs).2.1
            filePath = some ⟨content, clock⟩) ∧
    ((writeMihomoConfigFile content filePath pid tsNow clock wf fs).2.1 filePath =
        fs filePath ∨
      (writeMihomoConfigFile content filePath pid tsNow clock wf fs).2.1 filePath =
        some ⟨content, clock⟩) ∧
    (wf.statErr = none →
      ∀ e : MihomoConfigError,
        (writeMihomoConfigFile content filePath pid tsNow clock wf fs).1 =
            Except.error e →
          (writeMihomoConfigFile content filePath pid tsNow clock wf fs).2.1
              filePath = fs filePath) := by
  have hne : filePath ≠ tempPathOf filePath pid tsNow :=
    (tempPathOf_ne filePath pid tsNow).symm
  by_cases hsz : MAX_MIHOMO_CONFIG_SIZE_BYTES < content.utf8ByteSize
  · simp [writeMihomoConfigFile, hsz]
  · obtain ⟨w, rn, st, ul⟩ := wf
    cases w <;> cases rn <;> cases st <;> cases ul <;>
      simp [writeMihomoConfigFile, writeStorage, runUnlink, fsSet, hsz, hne]

/-- Witness for C2 at a concrete faulty run: the target is old-or-new. -/
theorem write_atomic_witness :
    (writeMihomoConfigFile samplePayload MIHOMO_CONFIG_FILE_PATH 11 22 33
        statFault sampleFS).2.1 MIHOMO_CONFIG_FILE_PATH =
      sampleFS MIHOMO_CONFIG_FILE_PATH ∨
    (writeMihomoConfigFile samplePayload MIHOMO_CONFIG_FILE_PATH 11 22 33
        statFault sampleFS).2.1 MIHOMO_CONFIG_FILE_PATH =
      some ⟨samplePayload, 33⟩ :=
  (write_atomic samplePayload MIHOMO_CONFIG_FILE_PATH 11 22 33 statFault
    sampleFS).2.1

/-- C2, counterexample to the claim as stated: with a fault only in the
final stat of the target, the call reports a failure although the rename
has already replaced the target's prior content with the new content, so a
failure does not imply the prior state is unaffected. -/
theorem write_atomic_counterexample :
    (writeMihomoConfigFile samplePayload MIHOMO_CONFIG_FILE_PATH 11 22 33
        statFault sampleFS).1 =
      Except.error ⟨.IO_ERROR, 500, ioErrorMessage .write⟩ ∧
    sampleFS MIHOMO_CONFIG_FILE_PATH = some ⟨"port: 7890\n", 5⟩ ∧
    (writeMihomoConfigFile samplePayload MIHOMO_CONFIG_FILE_PATH 11 22 33
        statFault sampleFS).2.1 MIHOMO_CONFIG_FILE_PATH =
      some ⟨samplePayload, 33⟩ ∧
    some (⟨samplePayload, 33⟩ : File) ≠ some (⟨"port: 7890\n", 5⟩ : File) :=
  ⟨rfl, rfl, rfl, by decide⟩

/-- C3: content whose UTF-8 byte length exceeds the ceiling fails with
CONTENT_TOO_LARGE 413, the filesystem is returned byte-for-byte unchanged,
and the operation trace is empty: no storage primitive was attempted. -/
theorem write_content_too_large (content filePath : String)
    (pid tsNow clock : Nat) (wf : WriteFaults) (fs : FS)
    (h : MAX_MIHOMO_CONFIG_SIZE_BYTES < content.utf8ByteSize) :
    writeMihomoConfigFile content filePath pid tsNow clock wf fs =
      (Except.error ⟨.CONTENT_TOO_LARGE, 413, contentTooLargeMessage⟩, fs, []) := by
  simp [writeMihomoConfigFile, h]

/-- Witness for C3 at a concrete input of 2 MiB + 1 bytes. -/
theorem write_content_too_large_witness :
    MAX_MIHOMO_CONFIG_SIZE_BYTES < oversizeContent.utf8ByteSize ∧
    writeMihomoConfigFile oversizeContent MIHOMO_CONFIG_FILE_PATH 11 22 33
        noFaults sampleFS =
      (Except.error ⟨.CONTENT_TOO_LARGE, 413, contentTooLargeMessage⟩,
        sampleFS, []) := by
  have h : MAX_MIHOMO_CONFIG_SIZE_BYTES < oversizeContent.utf8ByteSize := by
    rw [oversizeContent_utf8]
    omega
  exact ⟨h, write_content_too_large oversizeContent MIHOMO_CONFIG_FILE_PATH 11 22 33
    noFaults sampleFS h⟩

/-- C10: a content string of exactly MAX_MIHOMO_CONFIG_SIZE_BYTES bytes
passes the strictly-greater size check, and with fault-free storage the
write succeeds: the ceiling is exclusive at exactly the maximum. -/
theorem write_accepts_exact_max (content filePath : String)
    (pid tsNow clock : Nat) (fs : FS)
    (h : content.utf8ByteSize = MAX_MIHOMO_CONFIG_SIZE_BYTES) :
    (writeMihomoConfigFile content filePath pid tsNow clock noFaults fs).1 =
      Except.ok ⟨clock⟩ := by
  have hsz : ¬ MAX_MIHOMO_CONFIG_SIZE_BYTES < content.utf8ByteSize := by omega
  exact (write_ok_run content filePath pid tsNow clock none fs hsz).1

/-- Witness for C10 at a concrete input of exactly 2 MiB. -/
theorem write_accepts_exact_max_witness :
    exactMaxContent.utf8ByteSize = MAX_MIHOMO_CONFIG_SIZE_BYTES ∧
    (writeMihomoConfigFile exactMaxContent MIHOMO_CONFIG_FILE_PATH 11 22 33
        noFaults sampleFS).1 = Except.ok ⟨33⟩ :=
  ⟨exactMaxContent_utf8,
    write_accepts_exact_max exactMaxContent MIHOMO_CONFIG_FILE_PATH 11 22 33
      sampleFS exactMaxContent_utf8⟩

/-- C4: non-string content is rejected by the writer with INVALID_CONTENT
400, an unchanged filesystem and an empty operation trace; the HTTP PUT
boundary performs the same check on the request body — a nullish body or a
non-string content property — before delegating to the writer. -/
theorem write_invalid_content (v : JSValue) (filePath : String)
    (pid tsNow clock : Nat) (wf : WriteFaults) (fs : FS)
    (hv : v.isString = false) :
    writeMihomoConfigFileJS v filePath pid tsNow clock wf fs =
      (Except.error ⟨.INVALID_CONTENT, 400, invalidContentMessage⟩, fs, []) ∧
    mihomoConfigPut (some ⟨v⟩) filePath pid tsNow clock wf fs =
      (Except.error ⟨400, invalidContentMessage, some .INVALID_CONTENT⟩, fs, []) ∧
    mihomoConfigPut none filePath pid tsNow clock wf fs =
      (Except.error ⟨400, invalidContentMessage, some .INVALID_CONTENT⟩, fs, []) := by
  cases v <;> simp_all [writeMihomoConfigFileJS, mihomoConfigPut, JSValue.isString]

/-- Witness for C4 at the concrete non-string value 3. -/
theorem write_invalid_content_witness :
    JSValue.isString (JSValue.num 3) = false ∧
    (writeMihomoConfigFileJS (JSValue.num 3) MIHOMO_CONFIG_FILE_PATH 11 22 33
        noFaults sampleFS =
      (Except.error ⟨.INVALID_CONTENT, 400, invalidContentMessage⟩, sampleFS, []) ∧
    mihomoConfigPut (some ⟨JSValue.num 3⟩) MIHOMO_CONFIG_FILE_PATH 11 22 33
        noFaults sampleFS =
      (Except.error ⟨400, invalidContentMessage, some .INVALID_CONTENT⟩,
        sampleFS, []) ∧
    mihomoConfigPut none MIHOMO_CONFIG_FILE_PATH 11 22 33 noFaults sampleFS =
      (Except.error ⟨400, invalidContentMessage, some .INVALID_CONTENT⟩,
        sampleFS, [])) :=
  ⟨rfl,
    write_invalid_content (JSValue.num 3) MIHOMO_CONFIG_FILE_PATH 11 22 33
      noFaults sampleFS rfl⟩

/-- C5: the classifier is a pure function of the failure signal and the
action: ENOENT maps to NOT_FOUND 404, EACCES and EPERM map to
PERMISSION_DENIED 403, every other signal maps to IO_ERROR 500, and the
action parameter affects only the message wording, never code or status. -/
theorem mapNodeError_spec (err : NodeError) (a b : FsAction) :
    (err.code = some enoent →
      mapNodeError err a = ⟨.NOT_FOUND, 404, notFoundMessage⟩) ∧
    (err.code = some eacces ∨ err.code = some eperm →
      mapNodeError err a = ⟨.PERMISSION_DENIED, 403, permissionDeniedMessage a⟩) ∧
    (err.code ≠ some enoent → err.code ≠ some eacces → err.code ≠ some eperm →
      mapNodeError err a = ⟨.IO_ERROR, 500, ioErrorMessage a⟩) ∧
    (mapNodeError err a).code = (mapNodeError err b).code ∧
    (mapNodeError err a).statusCode = (mapNodeError err b).statusCode := by
  refine ⟨fun h1 => ?_, fun h2 => ?_, fun h1 h2 h3 => ?_, ?_, ?_⟩
  · simp [mapNodeError, h1]
  · have h1 : ¬ err.code = some enoent := by
      rcases h2 with h | h <;> rw [h] <;> decide
    rw [mapNodeError.eq_def, if_neg h1, if_pos h2]
  · have h4 : ¬(err.code = some eacces ∨ err.code = some eperm) := by
      rintro (h | h)
      exacts [h2 h, h3 h]
    rw [mapNodeError.eq_def, if_neg h1, if_neg h4]
  · by_cases h1 : err.code = some enoent
    · simp [mapNodeError, h1]
    · by_cases h2 : err.code = some eacces ∨ err.code = some eperm
      · rw [mapNodeError.eq_def, if_neg h1, if_pos h2,
          mapNodeError.eq_def, if_neg h1, if_pos h2]
      · rw [mapNodeError.eq_def, if_neg h1, if_neg h2,
          mapNodeError.eq_def, if_neg h1, if_neg h2]
  · by_cases h1 : err.code = some enoent
    · simp [mapNodeError, h1]
    · by_cases h2 : err.code = some eacces ∨ err.code = some eperm
      · rw [mapNodeError.eq_def, if_neg h1, if_pos h2,
          mapNodeError.eq_def, if_neg h1, if_pos h2]
      · rw [mapNodeError.eq_def, if_neg h1, if_neg h2,
          mapNodeError.eq_def, if_neg h1, if_neg h2]

/-- Witness for C5 at concrete failure signals. -/
theorem mapNodeError_spec_witness :
    mapNodeError ⟨some enoent⟩ .read = ⟨.NOT_FOUND, 404, notFoundMessage⟩ ∧
    mapNodeError ⟨some eperm⟩ .write =
      ⟨.PERMISSION_DENIED, 403, permissionDeniedMessage .write⟩ ∧
    mapNodeError ⟨none⟩ .write = ⟨.IO_ERROR, 500, ioErrorMessage .write⟩ :=
  ⟨(mapNodeError_spec ⟨some enoent⟩ .read .write).1 rfl,
    (mapNodeError_spec ⟨some eperm⟩ .write .read).2.1 (Or.inr rfl),
    (mapNodeError_spec ⟨none⟩ .write .read).2.2.1 (by decide) (by decide)
      (by decide)⟩

/-- C6: a read of a path holding no file fails with NOT_FOUND 404; a read
never mutates the filesystem; a failing read on an existing file surfaces
exactly the classifier's verdict on the underlying failure; and the
classifier sends every non-ENOENT signal to PERMISSION_DENIED or IO_ERROR. -/
theorem read_spec (filePath : String) (rf : ReadFaults) (fs : FS) :
    (fs filePath = none →
      (readMihomoConfigFile filePath rf fs).1 =
        Except.error ⟨.NOT_FOUND, 404, notFoundMessage⟩) ∧
    (readMihomoConfigFile filePath rf fs).2 = fs ∧
    (∀ file e, fs filePath = some file → rf.readFileErr = some e →
      (readMihomoConfigFile filePath rf fs).1 =
        Except.error (mapNodeError e .read)) ∧
    (∀ file e, fs filePath = some file → rf.readFileErr = none →
      rf.statErr = some e →
      (readMihomoConfigFile filePath rf fs).1 =
        Except.error (mapNodeError e .read)) ∧
    (∀ e : NodeError, e.code ≠ some enoent →
      (mapNodeError e .read).code = .PERMISSION_DENIED ∨
        (mapNodeError e .read).code = .IO_ERROR) := by
  obtain ⟨rfe, ste⟩ := rf
  refine ⟨?_, ?_, ?_, ?_, ?_⟩
  · intro h
    simp [readMihomoConfigFile, h, mapNodeError, enoent]
  · rcases hfs : fs filePath with _ | file <;> cases rfe <;> cases ste <;>
      simp [readMihomoConfigFile, hfs]
  · intro file e hfs hrfe
    subst hrfe
    simp [readMihomoConfigFile, hfs]
  · intro file e hfs hrfe hste
    subst hrfe
    subst hste
    simp [readMihomoConfigFile, hfs]
  · intro e he
    by_cases h2 : e.code = some eacces ∨ e.code = some eperm
    · left
      rw [mapNodeError.eq_def, if_neg he, if_pos h2]
    · right
      rw [mapNodeError.eq_def, if_neg he, if_neg h2]

/-- Witness for C6 at the empty filesystem and a concrete access-denied
signal. -/
theorem read_spec_witness :
    (readMihomoConfigFile MIHOMO_CONFIG_FILE_PATH ⟨none, none⟩ emptyFS).1 =
      Except.error ⟨.NOT_FOUND, 404, notFoundMessage⟩ ∧
    (readMihomoConfigFile MIHOMO_CONFIG_FILE_PATH ⟨some ⟨some eacces⟩, none⟩
        sampleFS).1 = Except.error (mapNodeError ⟨some eacces⟩ .read) :=
  ⟨(read_spec MIHOMO_CONFIG_FILE_PATH ⟨none, none⟩ emptyFS).1 rfl,
    (read_spec MIHOMO_CONFIG_FILE_PATH ⟨some ⟨some eacces⟩, none⟩ sampleFS).2.2.1
      ⟨"port: 7890\n", 5⟩ ⟨some eacces⟩ rfl rfl⟩

/-- C7 (amended): once the validation guards pass, every exit path of the
writer attempts the cleanup unlink of the temporary path; whether that
cleanup fails never changes the primary outcome; and when cleanup works the
temporary path is absent afterwards.  A validation failure exits before any
temporary path exists, so no temporary file can remain from such a call. -/
theorem write_cleanup (content filePath : String) (pid tsNow clock : Nat)
    (wf : WriteFaults) (fs : FS)
    (hsz : content.utf8ByteSize ≤ MAX_MIHOMO_CONFIG_SIZE_BYTES) :
    FsOp.unlinkOp (tempPathOf filePath pid tsNow) ∈
      (writeMihomoConfigFile content filePath pid tsNow clock wf fs).2.2 ∧
    (∀ ul2 : Option NodeError,
      (writeMihomoConfigFile content filePath pid tsNow clock
          ⟨wf.writeFileErr, wf.renameErr, wf.statErr, ul2⟩ fs).1 =
        (writeMihomoConfigFile content filePath pid tsNow clock wf fs).1) ∧
    (wf.unlinkErr = none →
      (writeMihomoConfigFile content filePath pid tsNow clock wf fs).2.1
        (tempPathOf filePath pid tsNow) = none) := by
  have hsz2 : ¬ MAX_MIHOMO_CONFIG_SIZE_BYTES < content.utf8ByteSize := by omega
  have hne : filePath ≠ tempPathOf filePath pid tsNow :=
    (tempPathOf_ne filePath pid tsNow).symm
  obtain ⟨w, rn, st, ul⟩ := wf
  cases w <;> cases rn <;> cases st <;> cases ul <;>
    simp [writeMihomoConfigFile, writeStorage, runUnlink, fsSet, hsz2, hne]

/-- Witness for C7 at a concrete fault-free call. -/
theorem write_cleanup_witness :
    samplePayload.utf8ByteSize ≤ MAX_MIHOMO_CONFIG_SIZE_BYTES ∧
    (FsOp.unlinkOp (tempPathOf MIHOMO_CONFIG_FILE_PATH 11 22) ∈
      (writeMihomoConfigFile samplePayload MIHOMO_CONFIG_FILE_PATH 11 22 33
          noFaults sampleFS).2.2 ∧
    (∀ ul2 : Option NodeError,
      (writeMihomoConfigFile samplePayload MIHOMO_CONFIG_FILE_PATH 11 22 33
          ⟨noFaults.writeFileErr, noFaults.renameErr, noFaults.statErr, ul2⟩
          sampleFS).1 =
        (writeMihomoConfigFile samplePayload MIHOMO_CONFIG_FILE_PATH 11 22 33
            noFaults sampleFS).1) ∧
    (noFaults.unlinkErr = none →
      (writeMihomoConfigFile samplePayload MIHOMO_CONFIG_FILE_PATH 11 22 33
          noFaults sampleFS).2.1 (tempPathOf MIHOMO_CONFIG_FILE_PATH 11 22) =
        none)) :=
  ⟨by decide,
    write_cleanup samplePayload MIHOMO_CONFIG_FILE_PATH 11 22 33 noFaults sampleFS
      (by decide)⟩

/-- C7, counterexample to the claim as stated: the oversize validation exit
is an exit path of the writer, with a primary error, on which no removal of
the temporary path is attempted — the operation trace is empty. -/
theorem write_cleanup_counterexample :
    (writeMihomoConfigFile oversizeContent MIHOMO_CONFIG_FILE_PATH 11 22 33
        noFaults sampleFS).1 =
      Except.error ⟨.CONTENT_TOO_LARGE, 413, contentTooLargeMessage⟩ ∧
    (writeMihomoConfigFile oversizeContent MIHOMO_CONFIG_FILE_PATH 11 22 33
        noFaults sampleFS).2.2 = [] ∧
    FsOp.unlinkOp (tempPathOf MIHOMO_CONFIG_FILE_PATH 11 22) ∉
      (writeMihomoConfigFile oversizeContent MIHOMO_CONFIG_FILE_PATH 11 22 33
          noFaults sampleFS).2.2 := by
  have h : MAX_MIHOMO_CONFIG_SIZE_BYTES < oversizeContent.utf8ByteSize := by
    rw [oversizeContent_utf8]
    omega
  refine ⟨?_, ?_, ?_⟩ <;> simp [writeMihomoConfigFile, h]

/-- C8: with a monotone clock — the stamp the filesystem puts on the temp
file is at least the mtime a fault-free read observed immediately before
the call — a successful write returns an mtimeMs greater than or equal to
that prior mtimeMs. -/
theorem write_mtime_ge (content filePath : String) (pid tsNow clock : Nat)
    (wf : WriteFaults) (fs : FS) (r0 : ReadResult) (r1 : WriteResult)
    (hread : (readMihomoConfigFile filePath ⟨none, none⟩ fs).1 = Except.ok r0)
    (hclock : r0.mtimeMs ≤ clock)
    (hwrite : (writeMihomoConfigFile content filePath pid tsNow clock wf fs).1 =
      Except.ok r1) :
    r0.mtimeMs ≤ r1.mtimeMs := by
  obtain ⟨-, -, -, hr⟩ := write_ok_shape _ _ _ _ _ _ _ _ hwrite
  rw [hr]
  exact hclock

/-- Witness for C8 at the sample filesystem: prior mtime 5, write clock 33. -/
theorem write_mtime_ge_witness :
    (readMihomoConfigFile MIHOMO_CONFIG_FILE_PATH ⟨none, none⟩ sampleFS).1 =
      Except.ok ⟨"port: 7890\n", 5⟩ ∧
    (writeMihomoConfigFile samplePayload MIHOMO_CONFIG_FILE_PATH 11 22 33
        noFaults sampleFS).1 = Except.ok ⟨33⟩ ∧
    (5 : Nat) ≤ (33 : Nat) :=
  ⟨rfl, rfl,
    write_mtime_ge samplePayload MIHOMO_CONFIG_FILE_PATH 11 22 33 noFaults
      sampleFS ⟨"port: 7890\n", 5⟩ ⟨33⟩ rfl (by decide) rfl⟩

/-- A url that passes the scheme check is truthy (nonempty). -/
theorem jsTruthy_of_scheme (u : String)
    (h : strStartsWith u ("http://") = true ∨
      strStartsWith u ("https://") = true) :
    jsTruthy u = true := by
  obtain ⟨data⟩ := u
  cases data with
  | nil => rcases h with h | h <;> exact absurd h (by decide)
  | cons c cs => simp [jsTruthy]

/-- C9: the bounded remote fetch rejects oversized payloads with 413 under
the same 2 MiB ceiling as the config store: via the declared content-length
header when that header is present and parses to a number over the ceiling,
via the actual UTF-8 byte length of the decoded body, and consequently a
successful fetch result is always within the ceiling. -/
theorem remoteFetch_size_limit (u : String) (resp : FetchResponse)
    (hu : strStartsWith u ("http://") = true ∨
      strStartsWith u ("https://") = true)
    (hok : resp.ok = true) :
    (∀ s n, resp.contentLength = some s → jsNumber s = some n →
      MAX_MIHOMO_CONFIG_SIZE_BYTES < n →
      remoteFetchHandler (some u) resp =
        Except.error ⟨413, remoteTooLargeMessage, none⟩) ∧
    (MAX_MIHOMO_CONFIG_SIZE_BYTES < resp.bodyText.utf8ByteSize →
      remoteFetchHandler (some u) resp =
        Except.error ⟨413, remoteTooLargeMessage, none⟩) ∧
    (∀ res, remoteFetchHandler (some u) resp = Except.ok res →
      res.content.utf8ByteSize ≤ MAX_MIHOMO_CONFIG_SIZE_BYTES) := by
  have htru : jsTruthy u = true := jsTruthy_of_scheme u hu
  have hsch : (strStartsWith u ("http://") || strStartsWith u ("https://")) =
      true := by
    rcases hu with h | h <;> simp [h]
  refine ⟨?_, ?_, ?_⟩
  · intro s n hs hn hlt
    have htr : jsTruthy s = true := by
      by_contra hc
      have hd : s.data = [] := by simpa [jsTruthy] using hc
      simp [jsNumber, hd] at hn
    have hov : contentLengthOversized resp.contentLength = true := by
      rw [hs]
      simp [contentLengthOversized, htr, jsHeaderNumberGt, hn, hlt]
    simp [remoteFetchHandler, htru, hsch, hok, hov]
  · intro hbody
    by_cases hov : contentLengthOversized resp.contentLength = true
    · simp [remoteFetchHandler, htru, hsch, hok, hov]
    · have hov2 : contentLengthOversized resp.contentLength = false := by
        simpa using hov
      simp [remoteFetchHandler, htru, hsch, hok, hov2, hbody]
  · intro res h
    by_cases hov : contentLengthOversized resp.contentLength = true
    · simp [remoteFetchHandler, htru, hsch, hok, hov] at h
    · have hov2 : contentLengthOversized resp.contentLength = false := by
        simpa using hov
      by_cases hb : MAX_MIHOMO_CONFIG_SIZE_BYTES < resp.bodyText.utf8ByteSize
      · simp [remoteFetchHandler, htru, hsch, hok, hov2, hb] at h
      · simp [remoteFetchHandler, htru, hsch, hok, hov2, hb] at h
        subst h
        exact Nat.le_of_not_lt hb

/-- Witness for C9: an oversize declared content-length and an oversize
decoded body are each rejected with 413. -/
theorem remoteFetch_size_limit_witness :
    remoteFetchHandler (some ("http://example.com/a.yaml"))
        ⟨true, 200, some ("2097153"), "hi"⟩ =
      Except.error ⟨413, remoteTooLargeMessage, none⟩ ∧
    remoteFetchHandler (some ("http://example.com/a.yaml"))
        ⟨true, 200, none, oversizeContent⟩ =
      Except.error ⟨413, remoteTooLargeMessage, none⟩ :=
  ⟨(remoteFetch_size_limit ("http://example.com/a.yaml")
        ⟨true, 200, some ("2097153"), "hi"⟩ (Or.inl (by decide)) rfl).1
      ("2097153") 2097153 rfl (by decide) (by decide),
    (remoteFetch_size_limit ("http://example.com/a.yaml")
        ⟨true, 200, none, oversizeContent⟩ (Or.inl (by decide)) rfl).2.1
      (show MAX_MIHOMO_CONFIG_SIZE_BYTES < oversizeContent.utf8ByteSize by
        rw [oversizeContent_utf8]
        omega)⟩

end MihomoConfig
